import Mathlib

/-!
Shallow embedding of the session/process multiplexing core of the
windowsCowork desktop application, together with theorems checking the
natural-language specification against the code.

The embedding follows the TypeScript sources:
  - store/chatSlice.ts, store/taskSlice.ts, store/fileSlice.ts,
    store/sessionSlice.ts, store/apiSlice.ts (Redux reducers),
  - components/SessionPanel.tsx (the session switch orchestrator handlers),
  - the Electron main process (PTY registry, cli:&#42; and chat:&#42; IPC handlers).
JS strings are modelled as Lean strings (scrollback as List Char so that
length/slicing reasoning is elementwise), JS numbers used as ids/counters
as Nat, JS Maps and plain objects used as keyed records as association
lists, and localStorage round trips as explicit Option-valued inputs.
-/

namespace Cowork

/-- Generic helper: replace the first element satisfying p by f of it,
mirroring the JS pattern of finding an element and mutating it in place. -/
def updateFirst (p : α → Bool) (f : α → α) : List α → List α
| [] => []
| x :: xs => if p x then f x :: xs else x :: updateFirst p f xs

/-- Association-list lookup, mirroring Map.get / object property read. -/
def alookup (l : List (String × β)) (k : String) : Option β :=
(l.find? (fun q => decide (q.1 = k))).map (fun q => q.2)

/-- Association-list insert-or-overwrite, mirroring Map.set / property write. -/
def aset : List (String × β) → String → β → List (String × β)
| [], k, v => [(k, v)]
| (k', v') :: rest, k, v =>
  if k' = k then (k, v) :: rest else (k', v') :: aset rest k v

/-- Association-list removal, mirroring Map.delete / delete obj[k]. -/
def aerase (l : List (String × β)) (k : String) : List (String × β) :=
l.filter (fun q => decide (q.1 ≠ k))

/-- Last n elements of a list; models JS String.prototype.slice with a
negative start index. -/
def lastN (n : Nat) (l : List α) : List α :=
l.drop (l.length - n)

/-- JS String.prototype.trim: strip leading and trailing whitespace.
Modelled directly on the character list so that it evaluates by kernel
reduction. -/
def jsTrim (s : String) : String :=
⟨((s.data.dropWhile Char.isWhitespace).reverse.dropWhile Char.isWhitespace).reverse⟩

/-! ## chatSlice.ts -/

/-- Message role, the union type of ChatMessage.type. -/
inductive MsgType where
| user
| assistant
| error
| system
deriving DecidableEq, Repr

/-- ChatMessage from chatSlice.ts. -/
structure ChatMessage where
  id : Nat
  type : MsgType
  text : String
deriving DecidableEq, Repr

/-- The default welcome message installed by chatSlice (id 0, system). -/
def welcomeMessage : ChatMessage :=
⟨0, MsgType.system, "FreiCowork에 오신 것을 환영합니다. 무엇을 도와드릴까요?"⟩

/-- ChatState from chatSlice.ts. -/
structure ChatState where
  messages : List ChatMessage
  input : String
  isStreaming : Bool
  nextId : Nat
deriving DecidableEq, Repr

/-- Reducer chat/restoreMessages: replaces the live message list (falling
back to the single welcome message when the restored list is empty),
sets nextId, clears input and streaming. -/
def restoreMessages (_st : ChatState) (msgs : List ChatMessage) (nid : Nat) : ChatState :=
{ messages := if msgs.length > 0 then msgs else [welcomeMessage],
  input := "", isStreaming := false, nextId := nid }

/-! ## taskSlice.ts -/

/-- Task from taskSlice.ts. -/
structure Task where
  id : Nat
  text : String
  done : Bool
deriving DecidableEq, Repr

/-- TaskState from taskSlice.ts. -/
structure TaskState where
  tasks : List Task
  counter : Nat
  input : String
deriving DecidableEq, Repr

/-- Reducer task/restoreTasks: full replacement of tasks and counter. -/
def restoreTasks (_st : TaskState) (tasks : List Task) (counter : Nat) : TaskState :=
{ tasks := tasks, counter := counter, input := "" }

/-! ## fileSlice.ts -/

/-- FileEntry from fileSlice.ts. -/
structure FileEntry where
  name : String
  isDirectory : Bool
deriving DecidableEq, Repr

/-- FileState from fileSlice.ts. -/
structure FileState where
  currentPath : String
  inputPath : String
  entries : List FileEntry
  selectedFile : String
  error : String
  fileAlert : String
deriving DecidableEq, Repr

/-- Reducer file/setDirectory. -/
def setDirectory (st : FileState) (path : String) (entries : List FileEntry) : FileState :=
{ st with currentPath := path, inputPath := path, entries := entries,
          error := "", selectedFile := "", fileAlert := "" }

/-! ## sessionSlice.ts -/

/-- Session record from sessionSlice.ts. -/
structure Session where
  id : String
  name : String
  path : String
  messages : List ChatMessage
  tasks : List Task
  taskCounter : Nat
deriving DecidableEq, Repr

/-- SessionState from sessionSlice.ts. -/
structure SessionState where
  sessions : List Session
  activeId : Option String
deriving DecidableEq, Repr

/-- SessionSnapshot from sessionSlice.ts (payload of saveCurrentState). -/
structure SessionSnapshot where
  messages : List ChatMessage
  nextId : Nat
  tasks : List Task
  taskCounter : Nat
  currentPath : String
deriving DecidableEq, Repr

/-- Reducer session/addSession: push a fresh empty session and activate it.
The generated unique id is passed explicitly. -/
def addSession (st : SessionState) (newId name path : String) : SessionState :=
{ sessions := st.sessions ++ [⟨newId, name, path, [], [], 0⟩],
  activeId := some newId }

/-- Reducer session/deleteSession: filter the session out; if it was active,
activate the first remaining session or null. -/
def deleteSession (st : SessionState) (id : String) : SessionState :=
let remaining := st.sessions.filter (fun s => decide (s.id ≠ id))
{ sessions := remaining,
  activeId :=
    if st.activeId = some id then
      (match remaining with
       | [] => none
       | s :: _ => some s.id)
    else st.activeId }

/-- Reducer session/switchSession: activate the target only if it exists. -/
def switchSession (st : SessionState) (id : String) : SessionState :=
if (st.sessions.find? (fun s => decide (s.id = id))).isSome then
  { st with activeId := some id }
else st

/-- Reducer session/saveCurrentState: bulk-overwrite the active session's
messages, tasks, taskCounter and path from the snapshot (nextId in the
snapshot is not stored). No-op when activeId is null or empty (JS
truthiness) or resolves to no session. -/
def saveCurrentState (st : SessionState) (snap : SessionSnapshot) : SessionState :=
match st.activeId with
| none => st
| some aid =>
  if aid = "" then st
  else
    let upd : Session → Session := fun s =>
      { s with messages := snap.messages, tasks := snap.tasks,
               taskCounter := snap.taskCounter, path := snap.currentPath }
    { st with sessions := updateFirst (fun s => decide (s.id = aid)) upd st.sessions }

/-! ## apiSlice.ts -/

/-- Provider union type from apiSlice.ts. -/
inductive Provider where
| anthropic
| openai
| gemini
| claudeCode
| codex
deriving DecidableEq, Repr

/-- CLI_PROVIDERS from apiSlice.ts. -/
def CLI_PROVIDERS : List Provider := [Provider.claudeCode, Provider.codex]

/-- isCliProvider from apiSlice.ts. -/
def isCliProvider (p : Provider) : Bool := CLI_PROVIDERS.contains p

/-- MODELS table from apiSlice.ts. -/
def MODELS : Provider → List String
| Provider.anthropic =>
  ["claude-sonnet-4-20250514", "claude-opus-4-20250514", "claude-haiku-4-20250514"]
| Provider.openai => ["gpt-4o", "gpt-4o-mini"]
| Provider.gemini => ["gemini-2.5-pro", "gemini-2.5-flash"]
| Provider.claudeCode => []
| Provider.codex => []

/-- SessionApiSnapshot from apiSlice.ts. -/
structure SessionApiSnapshot where
  connected : Bool
  provider : Provider
  model : String
deriving DecidableEq, Repr

/-- ApiState from apiSlice.ts. apiKeys is the provider→secret mapping. -/
structure ApiState where
  provider : Provider
  model : String
  apiKeys : Provider → String
  connected : Bool
  connectedSessions : List (String × SessionApiSnapshot)

/-- Reducer api/setProvider: switch provider, auto-select its first model
(empty string when the provider has none). -/
def setProvider (st : ApiState) (p : Provider) : ApiState :=
{ st with provider := p,
          model := (match MODELS p with
                    | [] => ""
                    | m :: _ => m) }

/-- Reducer api/setModel. -/
def setModel (st : ApiState) (m : String) : ApiState :=
{ st with model := m }

/-- Reducer api/setApiKey. -/
def setApiKey (st : ApiState) (p : Provider) (key : String) : ApiState :=
{ st with apiKeys := fun q => if q = p then key else st.apiKeys q }

/-- Reducer api/setConnected. -/
def setConnected (st : ApiState) (b : Bool) : ApiState :=
{ st with connected := b }

/-- Reducer api/disconnect. -/
def apiDisconnect (st : ApiState) : ApiState :=
{ st with connected := false }

/-- Reducer api/saveSessionConnected: snapshot the current connected flag,
provider and model under the session id, unconditionally. -/
def saveSessionConnected (st : ApiState) (sid : String) : ApiState :=
let snap : SessionApiSnapshot := ⟨st.connected, st.provider, st.model⟩
{ st with connectedSessions := aset st.connectedSessions sid snap }

/-- Reducer api/restoreSessionConnected: load the snapshot for the session
if present, otherwise force connected to false. -/
def restoreSessionConnected (st : ApiState) (sid : String) : ApiState :=
match alookup st.connectedSessions sid with
| some snap =>
  { st with connected := snap.connected, provider := snap.provider, model := snap.model }
| none => { st with connected := false }

/-- Reducer api/removeSessionConnected. -/
def removeSessionConnected (st : ApiState) (sid : String) : ApiState :=
{ st with connectedSessions := aerase st.connectedSessions sid }

/-- The default ApiState produced when nothing valid is in storage. -/
def defaultApiState : ApiState :=
{ provider := Provider.anthropic,
  model := (MODELS Provider.anthropic).headD "",
  apiKeys := fun _ => "",
  connected := false,
  connectedSessions := [] }

/-- loadState from apiSlice.ts: a valid persisted blob is taken over, except
that a cli-provider selection forces connected to false and the
connectedSessions snapshots are cleared unconditionally; an absent or
unparseable blob yields the defaults. -/
def loadState (stored : Option ApiState) : ApiState :=
match stored with
| none => defaultApiState
| some parsed =>
  { parsed with
    connected := if isCliProvider parsed.provider then false else parsed.connected,
    connectedSessions := [] }

/-- The actions dispatched against the connection-state tracker. -/
inductive ApiAction where
| setProvider (p : Provider)
| setModel (m : String)
| setApiKey (p : Provider) (key : String)
| setConnected (b : Bool)
| disconnect
| saveSessionConnected (sid : String)
| restoreSessionConnected (sid : String)
| removeSessionConnected (sid : String)

/-- One step of the apiSlice reducer. -/
def apiStep (st : ApiState) : ApiAction → ApiState
| ApiAction.setProvider p => setProvider st p
| ApiAction.setModel m => setModel st m
| ApiAction.setApiKey p k => setApiKey st p k
| ApiAction.setConnected b => setConnected st b
| ApiAction.disconnect => apiDisconnect st
| ApiAction.saveSessionConnected sid => saveSessionConnected st sid
| ApiAction.restoreSessionConnected sid => restoreSessionConnected st sid
| ApiAction.removeSessionConnected sid => removeSessionConnected st sid

/-- Run a trace of tracker actions from a starting state. -/
def apiRun (st : ApiState) (acts : List ApiAction) : ApiState :=
acts.foldl apiStep st

/-! ## PTY registry (Electron main process, cli:&#42; IPC handlers) -/

/-- MAX_SCROLLBACK from the main process. -/
def MAX_SCROLLBACK : Nat := 100000

/-- CLI_COMMANDS table: cli provider kind to command and arguments. -/
def CLI_COMMANDS : String → Option (String × List String)
| "claude-code" => some ("claude", [])
| "codex" => some ("codex", [])
| _ => none

/-- PtyEntry from the main process: a live process handle (pid stands for
the handle), the provider kind spawned, and the scrollback buffer. -/
structure PtyEntry where
  pid : Nat
  provider : String
  scrollback : List Char
deriving DecidableEq, Repr

/-- The cliProcesses map, session id to live entry. -/
abbrev RegState := List (String × PtyEntry)

/-- Result shape of the cli:connect handler: ok, the optional existing
flag, the optional error string. -/
structure ConnectResult where
  ok : Bool
  existing : Bool
  error : Option String
deriving DecidableEq, Repr

/-- Outcome of the external pty.spawn call (a suspension point): either a
live process or a thrown error. -/
inductive SpawnOutcome where
| ok (pid : Nat)
| err (msg : String)
deriving DecidableEq, Repr

/-- Output of cli:connect: the updated map, the IPC result, and whether a
process was spawned by this call. -/
structure ConnectOutput where
  state : RegState
  res : ConnectResult
  spawned : Bool
deriving DecidableEq

/-- cli:connect: reattach when an entry exists; reject unknown provider
kinds; otherwise spawn (outcome supplied by the environment) and register
a fresh entry with empty scrollback on success. -/
def cliConnect (st : RegState) (sessionId provider : String) (_cwd : Option String)
    (spawn : SpawnOutcome) : ConnectOutput :=
if (alookup st sessionId).isSome then
  { state := st, res := { ok := true, existing := true, error := none }, spawned := false }
else
  match CLI_COMMANDS provider with
  | none =>
    { state := st,
      res := { ok := false, existing := false,
               error := some ("Unknown CLI provider: " ++ provider) },
      spawned := false }
  | some _ =>
    match spawn with
    | SpawnOutcome.err m =>
      { state := st,
        res := { ok := false, existing := false, error := some m },
        spawned := false }
    | SpawnOutcome.ok pid =>
      { state := aset st sessionId ⟨pid, provider, []⟩,
        res := { ok := true, existing := false, error := none },
        spawned := true }

/-- cli:disconnect: kill and remove the entry if present; always ok. -/
def cliDisconnect (st : RegState) (sessionId : String) : RegState :=
aerase st sessionId

/-- The scrollback accumulation step of the proc.onData callback: append,
then if the buffer exceeds MAX_SCROLLBACK keep only the final
MAX_SCROLLBACK characters (slice with negative index). -/
def appendScrollback (sb data : List Char) : List Char :=
if (sb ++ data).length > MAX_SCROLLBACK
then (sb ++ data).drop ((sb ++ data).length - MAX_SCROLLBACK)
else sb ++ data

/-- proc.onData for the entry of sessionId: accumulate output into that
entry's bounded scrollback (no-op when the entry is gone). -/
def onData (st : RegState) (sessionId : String) (data : List Char) : RegState :=
let upd : String × PtyEntry → String × PtyEntry := fun q =>
  (q.1, { q.2 with scrollback := appendScrollback q.2.scrollback data })
updateFirst (fun q => decide (q.1 = sessionId)) upd st

/-- Result shape of cli:getScrollback. -/
structure ScrollbackResult where
  ok : Bool
  data : List Char
deriving DecidableEq, Repr

/-- cli:getScrollback: the accumulated text when an entry exists, otherwise
ok false with empty data. -/
def getScrollback (st : RegState) (sessionId : String) : ScrollbackResult :=
match alookup st sessionId with
| some e => { ok := true, data := e.scrollback }
| none => { ok := false, data := [] }

/-! ## Session switch orchestrator (components/SessionPanel.tsx) -/

/-- The whole renderer store relevant to the orchestrator handlers. -/
structure GlobalState where
  session : SessionState
  chat : ChatState
  task : TaskState
  file : FileState
  api : ApiState

/-- The live next-message-id computed on restore: one greater than the
maximum message id present, or 1 when the list is empty. -/
def nextIdOf (msgs : List ChatMessage) : Nat :=
match msgs with
| [] => 1
| _ => (msgs.foldl (fun a m => Nat.max a m.id) 0) + 1

/-- JS truthiness of the nullable activeId string. -/
def activeTruthy : Option String → Bool
| none => false
| some s => s != ""

/-- The snapshot-before-switch dispatches shared by handleAddSession and
handleSwitch: saveCurrentState with the given path, then
saveSessionConnected for the active id. No-op without a truthy activeId. -/
def snapshotCurrent (g : GlobalState) (pathToSave : String) : GlobalState :=
match g.session.activeId with
| none => g
| some aid =>
  if aid = "" then g
  else
    let snap : SessionSnapshot :=
      ⟨g.chat.messages, g.chat.nextId, g.task.tasks, g.task.counter, pathToSave⟩
    { g with session := saveCurrentState g.session snap,
             api := saveSessionConnected g.api aid }

/-- handleAddSession: reject an empty trimmed name; snapshot the outgoing
session using its OWN stored path when non-empty (currentSession?.path ||
file.currentPath); create and activate the new session at the file
browser's current path; reset the live chat/task view and disconnect. -/
def handleAddSession (g : GlobalState) (nameInput : String) (newId : String) : GlobalState :=
let name := jsTrim nameInput
if name = "" then g
else
  let g1 : GlobalState :=
    match g.session.activeId with
    | none => g
    | some aid =>
      if aid = "" then g
      else
        let snapPath : String :=
          match g.session.sessions.find? (fun s => decide (s.id = aid)) with
          | some cs => if cs.path = "" then g.file.currentPath else cs.path
          | none => g.file.currentPath
        snapshotCurrent g snapPath
  let g2 := { g1 with session := addSession g1.session newId name g.file.currentPath }
  { g2 with chat := restoreMessages g2.chat [] 1,
            task := restoreTasks g2.task [] 0,
            api := apiDisconnect g2.api }

/-- handleSwitch: no-op on the active id; snapshot the outgoing session
(with the file browser's current path); switch the active session;
restore the target's messages (nextIdOf) and tasks; optionally reload the
target's directory (the awaited readDir outcome is supplied as dir, and
applied only when ok with a truthy path); restore the target's
connection snapshot. The target is looked up in the pre-handler session
list, as in the component closure. -/
def handleSwitch (g : GlobalState) (id : String)
    (dir : Option (String × List FileEntry)) : GlobalState :=
if g.session.activeId = some id then g
else
  let g1 := snapshotCurrent g g.file.currentPath
  let g2 := { g1 with session := switchSession g1.session id }
  match g.session.sessions.find? (fun s => decide (s.id = id)) with
  | none => g2
  | some target =>
    let g3 := { g2 with
      chat := restoreMessages g2.chat target.messages (nextIdOf target.messages),
      task := restoreTasks g2.task target.tasks target.taskCounter }
    let file4 : FileState :=
      if target.path = "" then g3.file
      else
        match dir with
        | none => g3.file
        | some (p, es) =>
          if p = "" then g3.file else setDirectory g3.file p es
    { g3 with file := file4, api := restoreSessionConnected g3.api id }

/-- handleDelete: kill the PTY (registry side, modelled separately), drop
the connection snapshot, delete the session; when it was active, restore
the first remaining session's view and connection (optionally reloading
its directory), or clear the view when none remain. The remaining list is
computed from the pre-handler session list, as in the component closure. -/
def handleDelete (g : GlobalState) (id : String)
    (dir : Option (String × List FileEntry)) : GlobalState :=
let g0 := { g with api := removeSessionConnected g.api id }
let wasActive := g.session.activeId = some id
let g1 := { g0 with session := deleteSession g0.session id }
if wasActive then
  match g.session.sessions.filter (fun s => decide (s.id ≠ id)) with
  | next :: _ =>
    let g2 := { g1 with
      chat := restoreMessages g1.chat next.messages (nextIdOf next.messages),
      task := restoreTasks g1.task next.tasks next.taskCounter,
      api := restoreSessionConnected g1.api next.id }
    let file3 : FileState :=
      if next.path = "" then g2.file
      else
        match dir with
        | none => g2.file
        | some (p, es) =>
          if p = "" then g2.file else setDirectory g2.file p es
    { g2 with file := file3 }
  | [] =>
    { g1 with chat := restoreMessages g1.chat [] 1,
              task := restoreTasks g1.task [] 0,
              api := restoreSessionConnected g1.api "" }
else g1

/-! ## chat:send (Electron main process) -/

/-- A content block of a multi-part message. -/
inductive ContentBlock where
| text (s : String)
| image (mediaType data : String)
deriving DecidableEq, Repr

/-- Message content: plain text or an ordered list of typed blocks. -/
inductive MsgContent where
| str (s : String)
| blocks (l : List ContentBlock)
deriving DecidableEq, Repr

/-- One turn of the main-process conversationHistory. -/
structure HistTurn where
  role : String
  content : MsgContent
deriving DecidableEq, Repr

/-- The error object thrown by a provider SDK: an optional HTTP status, an
optional message, and its string conversion. -/
structure ChatErr where
  status : Option Nat
  message : Option String
  asString : String
deriving DecidableEq, Repr

/-- The JS expression err.message || String(err). -/
def errText (e : ChatErr) : String :=
match e.message with
| some m => if m = "" then e.asString else m
| none => e.asString

/-- Outcome of the provider streaming call: the chunks delivered so far,
and either normal completion or a thrown error. -/
inductive StreamOutcome where
| success (chunks : List String)
| failure (chunks : List String) (e : ChatErr)
deriving DecidableEq, Repr

/-- Events sent to the renderer during a chat turn. -/
inductive ChatEvent where
| chunk (s : String)
| streamEnd
deriving DecidableEq, Repr

/-- Result value returned by the chat:send handler. -/
inductive SendResult where
| ok (response : String)
| err (msg : String)
deriving DecidableEq, Repr

/-- Observable output of one chat:send call. -/
structure SendOutput where
  history : List HistTurn
  events : List ChatEvent
  result : SendResult
deriving DecidableEq, Repr

/-- The error categorization of the chat:send catch block: 401 maps to the
invalid-key message, 429 to the rate-limit message, anything else to
err.message || String(err). -/
def categorizeSendError (e : ChatErr) : String :=
if e.status = some 401 then "API 키가 유효하지 않습니다."
else if e.status = some 429 then "API 호출 한도를 초과했습니다."
else errText e

/-- chat:send: push the user turn onto the history first, then stream from
the selected provider. On completion, emit the end marker, append the
assistant turn (the concatenation of the chunks) and return ok. On a
thrown error, still emit the end marker, append nothing further, and
return the categorized error. -/
def chatSend (history : List HistTurn) (userMessage : MsgContent)
    (stream : StreamOutcome) : SendOutput :=
let h1 := history ++ [⟨"user", userMessage⟩]
match stream with
| StreamOutcome.success chunks =>
  let full := String.join chunks
  { history := h1 ++ [⟨"assistant", MsgContent.str full⟩],
    events := chunks.map ChatEvent.chunk ++ [ChatEvent.streamEnd],
    result := SendResult.ok full }
| StreamOutcome.failure chunks e =>
  { history := h1,
    events := chunks.map ChatEvent.chunk ++ [ChatEvent.streamEnd],
    result := SendResult.err (categorizeSendError e) }

/-! ## Trace predicates for the connection tracker -/

/-- Whether the trace contains a saveSessionConnected for sid issued at a
moment when the connected flag was true (evaluated along the run). -/
def savedWhileConnected (st : ApiState) (sid : String) : List ApiAction → Bool
| [] => false
| a :: rest =>
  (match a with
   | ApiAction.saveSessionConnected s => decide (s = sid) && st.connected
   | _ => false)
  || savedWhileConnected (apiStep st a) sid rest

/-- Whether the trace contains any saveSessionConnected for sid at all. -/
def everSaved (sid : String) : List ApiAction → Bool
| [] => false
| ApiAction.saveSessionConnected s :: rest => decide (s = sid) || everSaved sid rest
| _ :: rest => everSaved sid rest

/-! ## Association-list lemmas -/

theorem alookup_aset_self (l : List (String × β)) (k : String) (v : β) :
    alookup (aset l k v) k = some v := by
  induction l with
  | nil => simp [aset, alookup]
  | cons q rest ih =>
    by_cases h : q.1 = k
    · simp [aset, alookup, h]
    · have hk : ¬ k = q.1 := fun hh => h hh.symm
      by_cases h2 : q.1 = k
      · exact absurd h2 h
      · simp only [aset, if_neg (fun hh : q.1 = k => h hh)]
        simpa [alookup, List.find?, h] using ih

theorem alookup_aset_ne (l : List (String × β)) (k k' : String) (v : β)
    (h : k' ≠ k) :
    alookup (aset l k v) k' = alookup l k' := by
  have hk : ¬ k = k' := fun hh => h hh.symm
  induction l with
  | nil => simp [aset, alookup, hk]
  | cons q rest ih =>
    by_cases hq : q.1 = k
    · have hq2 : ¬ q.1 = k' := fun hh => h (hq ▸ hh).symm
      simp [aset, alookup, List.find?, hq, hk, hq2]
    · simp only [aset, if_neg hq]
      by_cases hq' : q.1 = k'
      · simp [alookup, List.find?, hq']
      · simpa [alookup, List.find?, hq'] using ih

theorem alookup_cons (q : String × β) (rest : List (String × β)) (k : String) :
    alookup (q :: rest) k = if q.1 = k then some q.2 else alookup rest k := by
  by_cases h : q.1 = k <;> simp [alookup, List.find?, h]

theorem aerase_cons (q : String × β) (rest : List (String × β)) (k : String) :
    aerase (q :: rest) k = if q.1 = k then aerase rest k else q :: aerase rest k := by
  by_cases h : q.1 = k <;> simp [aerase, List.filter_cons, h]

theorem alookup_aerase (l : List (String × β)) (k k' : String) :
    alookup (aerase l k) k' = if k' = k then none else alookup l k' := by
  induction l with
  | nil => simp [aerase, alookup]
  | cons q rest ih =>
    rw [aerase_cons]
    by_cases hq : q.1 = k
    · rw [if_pos hq, ih, alookup_cons]
      by_cases hk : k' = k
      · simp [hk]
      · have hq' : ¬ q.1 = k' := fun hh => hk (hh ▸ hq)
        simp [hk, hq']
    · rw [if_neg hq, alookup_cons, ih, alookup_cons]
      by_cases hq' : q.1 = k'
      · have hk : ¬ k' = k := fun hh => hq (hq'.trans hh)
        simp [hq', hk]
      · simp [hq']

/-! ## Claim C5: restart amnesia of the persisted connection state -/

/-- C5: for every persisted connection state whose selected provider is a
cli-provider, loading from storage yields connected = false regardless of
the stored flag, and loading clears all connectedSessions snapshots
unconditionally regardless of provider. -/
theorem loadState_restart_amnesia (parsed : ApiState) (stored : Option ApiState)
    (hcli : isCliProvider parsed.provider = true) :
    (loadState (some parsed)).connected = false
    ∧ (loadState stored).connectedSessions = [] := by
  refine ⟨?_, ?_⟩
  · simp [loadState, hcli]
  · cases stored <;> simp [loadState, defaultApiState]

theorem loadState_restart_amnesia_witness :
    isCliProvider (Provider.claudeCode) = true
    ∧ ((loadState (some ⟨Provider.claudeCode, "", fun _ => "", true,
          [("s1", ⟨true, Provider.claudeCode, ""⟩)]⟩)).connected = false
       ∧ (loadState (some ⟨Provider.claudeCode, "", fun _ => "", true,
          [("s1", ⟨true, Provider.claudeCode, ""⟩)]⟩)).connectedSessions = []) :=
⟨rfl, loadState_restart_amnesia
  ⟨Provider.claudeCode, "", fun _ => "", true, [("s1", ⟨true, Provider.claudeCode, ""⟩)]⟩
  (some ⟨Provider.claudeCode, "", fun _ => "", true, [("s1", ⟨true, Provider.claudeCode, ""⟩)]⟩)
  rfl⟩

/-! ## Claim C1: idempotent connect -/

/-- C1: when a first cli:connect call for a session id succeeded (so the id
has a live PTY entry), a second cli:connect for the same id with no
intervening disconnect spawns no second process, returns ok with
existing true, and leaves the registry unchanged. -/
theorem cliConnect_idempotent (st : RegState) (id provider : String)
    (cwd cwd2 : Option String) (sp sp2 : SpawnOutcome)
    (h : (cliConnect st id provider cwd sp).res.ok = true) :
    cliConnect (cliConnect st id provider cwd sp).state id provider cwd2 sp2
      = { state := (cliConnect st id provider cwd sp).state,
          res := { ok := true, existing := true, error := none },
          spawned := false } := by
  have hsome : (alookup (cliConnect st id provider cwd sp).state id).isSome = true := by
    by_cases h0 : (alookup st id).isSome = true
    · simp [cliConnect, h0]
    · cases hc : CLI_COMMANDS provider with
      | none => simp [cliConnect, h0, hc] at h
      | some pr =>
        cases sp with
        | err m => simp [cliConnect, h0, hc] at h
        | ok pid => simp [cliConnect, h0, hc, alookup_aset_self]
  generalize hst : (cliConnect st id provider cwd sp).state = st1 at hsome ⊢
  simp [cliConnect, hsome]

theorem cliConnect_idempotent_witness :
    ((cliConnect [] "s1" "claude-code" none (SpawnOutcome.ok 7)).res.ok = true)
    ∧ cliConnect (cliConnect [] "s1" "claude-code" none (SpawnOutcome.ok 7)).state
        "s1" "claude-code" none (SpawnOutcome.ok 8)
        = { state := (cliConnect [] "s1" "claude-code" none (SpawnOutcome.ok 7)).state,
            res := { ok := true, existing := true, error := none },
            spawned := false } :=
⟨rfl, cliConnect_idempotent [] "s1" "claude-code" none none
  (SpawnOutcome.ok 7) (SpawnOutcome.ok 8) rfl⟩

/-! ## Claim C9: failed chat turn -/

/-- C9: when the provider stream throws, chat:send still emits the stream
end marker last, appends no assistant turn (the history is exactly the
old history plus the user turn), emits as chunk events only actual stream
chunks, and returns a failure result whose message is categorized: the
invalid-credentials message for status 401, the rate-limit message for
status 429, and the underlying error text otherwise. -/
theorem chatSend_failure (history : List HistTurn) (um : MsgContent)
    (chunks : List String) (e : ChatErr) :
    (chatSend history um (StreamOutcome.failure chunks e)).events.getLast?
        = some ChatEvent.streamEnd
    ∧ (chatSend history um (StreamOutcome.failure chunks e)).history
        = history ++ [⟨"user", um⟩]
    ∧ (∀ t ∈ (chatSend history um (StreamOutcome.failure chunks e)).history,
         t.role = "assistant" → t ∈ history)
    ∧ (∀ s : String,
         ChatEvent.chunk s ∈ (chatSend history um (StreamOutcome.failure chunks e)).events
           → s ∈ chunks)
    ∧ (chatSend history um (StreamOutcome.failure chunks e)).result
        = SendResult.err (categorizeSendError e)
    ∧ (e.status = some 401 → categorizeSendError e = "API 키가 유효하지 않습니다.")
    ∧ (e.status = some 429 → categorizeSendError e = "API 호출 한도를 초과했습니다.")
    ∧ (e.status ≠ some 401 → e.status ≠ some 429 → categorizeSendError e = errText e) := by
  refine ⟨?_, rfl, ?_, ?_, rfl, ?_, ?_, ?_⟩
  · simp [chatSend, List.getLast?_concat]
  · intro t ht hrole
    simp only [chatSend] at ht
    rcases List.mem_append.mp ht with h1 | h2
    · exact h1
    · simp at h2
      rw [h2] at hrole
      simp at hrole
  · intro s hs
    simp only [chatSend] at hs
    rcases List.mem_append.mp hs with h1 | h2
    · rcases List.mem_map.mp h1 with ⟨x, hx, hxe⟩
      cases hxe
      exact hx
    · simp at h2
  · intro h401
    simp [categorizeSendError, h401]
  · intro h429
    have : e.status ≠ some 401 := by rw [h429]; simp
    simp [categorizeSendError, this, h429]
  · intro h401 h429
    simp [categorizeSendError, h401, h429]

theorem chatSend_failure_witness :
    (chatSend [] (MsgContent.str "hi")
        (StreamOutcome.failure ["partial"] ⟨some 401, none, "boom"⟩)).events.getLast?
        = some ChatEvent.streamEnd
    ∧ (chatSend [] (MsgContent.str "hi")
        (StreamOutcome.failure ["partial"] ⟨some 401, none, "boom"⟩)).history
        = ([] : List HistTurn) ++ [⟨"user", MsgContent.str "hi"⟩]
    ∧ (∀ t ∈ (chatSend [] (MsgContent.str "hi")
          (StreamOutcome.failure ["partial"] ⟨some 401, none, "boom"⟩)).history,
         t.role = "assistant" → t ∈ ([] : List HistTurn))
    ∧ (∀ s : String,
         ChatEvent.chunk s ∈ (chatSend [] (MsgContent.str "hi")
            (StreamOutcome.failure ["partial"] ⟨some 401, none, "boom"⟩)).events
           → s ∈ ["partial"])
    ∧ (chatSend [] (MsgContent.str "hi")
        (StreamOutcome.failure ["partial"] ⟨some 401, none, "boom"⟩)).result
        = SendResult.err (categorizeSendError ⟨some 401, none, "boom"⟩)
    ∧ ((⟨some 401, none, "boom"⟩ : ChatErr).status = some 401
         → categorizeSendError ⟨some 401, none, "boom"⟩ = "API 키가 유효하지 않습니다.")
    ∧ ((⟨some 401, none, "boom"⟩ : ChatErr).status = some 429
         → categorizeSendError ⟨some 401, none, "boom"⟩ = "API 호출 한도를 초과했습니다.")
    ∧ ((⟨some 401, none, "boom"⟩ : ChatErr).status ≠ some 401
         → (⟨some 401, none, "boom"⟩ : ChatErr).status ≠ some 429
         → categorizeSendError ⟨some 401, none, "boom"⟩ = errText ⟨some 401, none, "boom"⟩) :=
chatSend_failure [] (MsgContent.str "hi") ["partial"] ⟨some 401, none, "boom"⟩

/-! ## Claim C10: the user turn is appended first and persists -/

/-- C10: chat:send appends the user turn to the history before the provider
call, so it is the (history.length + 1)-prefix of the output history for
every stream outcome; on a failed turn the history is exactly the old
history plus that one user turn, so it has grown by exactly one entry. -/
theorem chatSend_user_first (history : List HistTurn) (um : MsgContent)
    (chunks : List String) (e : ChatErr) :
    (∀ s : StreamOutcome,
       (chatSend history um s).history.take (history.length + 1)
         = history ++ [⟨"user", um⟩])
    ∧ (chatSend history um (StreamOutcome.failure chunks e)).history
        = history ++ [⟨"user", um⟩]
    ∧ (chatSend history um (StreamOutcome.failure chunks e)).history.length
        = history.length + 1 := by
  have key : ∀ rest : List HistTurn,
      ((history ++ [(⟨"user", um⟩ : HistTurn)]) ++ rest).take (history.length + 1)
        = history ++ [(⟨"user", um⟩ : HistTurn)] := by
    intro rest
    have hl : (history ++ [(⟨"user", um⟩ : HistTurn)]).length = history.length + 1 := by
      simp
    rw [← hl, List.take_left]
  refine ⟨?_, rfl, by simp [chatSend]⟩
  intro s
  cases s with
  | success cs =>
    exact key [⟨"assistant", MsgContent.str (String.join cs)⟩]
  | failure cs e2 =>
    have h0 := key []
    rw [List.append_nil] at h0
    exact h0

/-! ## Claim C2: bounded scrollback is the suffix of the output -/

theorem lastN_length_le (n : Nat) (l : List α) : (lastN n l).length ≤ n := by
  simp only [lastN, List.length_drop]
  omega

theorem appendScrollback_eq_lastN (sb d : List Char) :
    appendScrollback sb d = lastN MAX_SCROLLBACK (sb ++ d) := by
  unfold appendScrollback lastN
  by_cases h : (sb ++ d).length > MAX_SCROLLBACK
  · rw [if_pos h]
  · rw [if_neg h]
    have h0 : (sb ++ d).length - MAX_SCROLLBACK = 0 := by omega
    rw [h0, List.drop_zero]

theorem lastN_append_left (n : Nat) (x d : List α) :
    lastN n (lastN n x ++ d) = lastN n (x ++ d) := by
  unfold lastN
  have h1 : x.drop (x.length - n) ++ d = (x ++ d).drop (x.length - n) := by
    rw [List.drop_append_eq_append_drop]
    have h0 : x.length - n - x.length = 0 := by omega
    rw [h0, List.drop_zero]
  rw [h1, List.drop_drop]
  congr 1
  simp only [List.length_drop, List.length_append]
  omega

theorem foldl_appendScrollback (ds : List (List Char)) (sb : List Char) :
    ds.foldl appendScrollback (lastN MAX_SCROLLBACK sb)
      = lastN MAX_SCROLLBACK (sb ++ ds.flatten) := by
  induction ds generalizing sb with
  | nil => rw [List.foldl_nil, List.flatten_nil, List.append_nil]
  | cons d ds ih =>
    rw [List.foldl_cons, appendScrollback_eq_lastN, lastN_append_left, ih (sb ++ d)]
    rw [List.flatten_cons, List.append_assoc]

theorem scrollback_of_writes (ds : List (List Char)) :
    ds.foldl appendScrollback [] = lastN MAX_SCROLLBACK ds.flatten := by
  have h0 : lastN MAX_SCROLLBACK ([] : List Char) = [] := rfl
  have h := foldl_appendScrollback ds []
  rw [h0] at h
  rw [h, List.nil_append]

theorem alookup_onData_self (st : RegState) (id : String) (d : List Char) :
    alookup (onData st id d) id
      = (alookup st id).map
          (fun e => { e with scrollback := appendScrollback e.scrollback d }) := by
  induction st with
  | nil => rfl
  | cons q rest ih =>
    by_cases h : q.1 = id
    · simp [onData, updateFirst, alookup, List.find?, h]
    · simp only [onData, updateFirst] at ih ⊢
      rw [if_neg (by simp [h])]
      rw [alookup_cons, alookup_cons, if_neg h, if_neg h]
      exact ih

theorem alookup_onData_other (st : RegState) (id id2 : String) (d : List Char)
    (h : id2 ≠ id) :
    alookup (onData st id d) id2 = alookup st id2 := by
  induction st with
  | nil => rfl
  | cons q rest ih =>
    by_cases hq : q.1 = id
    · simp only [onData, updateFirst]
      rw [if_pos (by simp [hq])]
      rw [alookup_cons, alookup_cons]
      simp only [hq]
      rw [if_neg (fun hh => h hh.symm), if_neg (fun hh => h hh.symm)]
    · simp only [onData, updateFirst] at ih ⊢
      rw [if_neg (by simp [hq])]
      rw [alookup_cons, alookup_cons]
      by_cases hq2 : q.1 = id2
      · simp [hq2]
      · rw [if_neg hq2, if_neg hq2]
        exact ih

theorem alookup_fold_onData (ds : List (List Char)) (st : RegState) (id : String) :
    alookup (ds.foldl (fun s d => onData s id d) st) id
      = (alookup st id).map
          (fun e => { e with scrollback := ds.foldl appendScrollback e.scrollback }) := by
  induction ds generalizing st with
  | nil => cases h : alookup st id <;> simp [h]
  | cons d ds ih =>
    rw [List.foldl_cons, ih, alookup_onData_self]
    cases h : alookup st id <;> simp [h]

/-- C2: starting from a registry state in which the session id has a live
entry with empty scrollback (as cli:connect creates it), after any
sequence of output writes the scrollback returned by cli:getScrollback is
exactly the most recent MAX_SCROLLBACK characters of the concatenated
output (a suffix, not a prefix), so its length never exceeds the cap; and
for an id with no entry cli:getScrollback returns ok false with empty
data. -/
theorem getScrollback_bounded_suffix (st st2 : RegState) (id : String)
    (e : PtyEntry) (ds : List (List Char))
    (hl : alookup st id = some e) (h0 : e.scrollback = [])
    (h2 : alookup st2 id = none) :
    getScrollback (ds.foldl (fun s d => onData s id d) st) id
      = { ok := true, data := lastN MAX_SCROLLBACK ds.flatten }
    ∧ (getScrollback (ds.foldl (fun s d => onData s id d) st) id).data.length
        ≤ MAX_SCROLLBACK
    ∧ getScrollback st2 id = { ok := false, data := [] } := by
  have hx := alookup_fold_onData ds st id
  rw [hl] at hx
  simp only [Option.map_some'] at hx
  rw [h0, scrollback_of_writes] at hx
  refine ⟨?_, ?_, ?_⟩
  · simp only [getScrollback, hx]
  · simp only [getScrollback, hx]
    exact lastN_length_le _ _
  · simp only [getScrollback, h2]

theorem getScrollback_bounded_suffix_witness :
    alookup ([("s1", ⟨3, "codex", []⟩)] : RegState) "s1" = some ⟨3, "codex", []⟩
    ∧ (⟨3, "codex", []⟩ : PtyEntry).scrollback = []
    ∧ alookup ([] : RegState) "s1" = none
    ∧ (getScrollback
        (([['a', 'b'], ['c']]).foldl (fun s d => onData s "s1" d)
          ([("s1", ⟨3, "codex", []⟩)] : RegState)) "s1"
        = { ok := true, data := lastN MAX_SCROLLBACK ([['a', 'b'], ['c']]).flatten }
       ∧ (getScrollback
            (([['a', 'b'], ['c']]).foldl (fun s d => onData s "s1" d)
              ([("s1", ⟨3, "codex", []⟩)] : RegState)) "s1").data.length
           ≤ MAX_SCROLLBACK
       ∧ getScrollback ([] : RegState) "s1" = { ok := false, data := [] }) :=
⟨rfl, rfl, rfl,
 getScrollback_bounded_suffix [("s1", ⟨3, "codex", []⟩)] [] "s1" ⟨3, "codex", []⟩
   [['a', 'b'], ['c']] rfl rfl rfl⟩

/-! ## Claim C4: which sessions get connectedSessions entries -/

theorem restoreSessionConnected_sessions (st : ApiState) (s : String) :
    (restoreSessionConnected st s).connectedSessions = st.connectedSessions := by
  unfold restoreSessionConnected
  cases alookup st.connectedSessions s <;> rfl

theorem entry_implies_saved_aux (acts : List ApiAction) : ∀ (st : ApiState) (sid : String),
    (alookup st.connectedSessions sid).isSome = false →
    (alookup (apiRun st acts).connectedSessions sid).isSome = true →
    everSaved sid acts = true := by
  induction acts with
  | nil =>
    intro st sid h0 h1
    rw [apiRun, List.foldl_nil] at h1
    rw [h0] at h1
    exact Bool.noConfusion h1
  | cons a rest ih =>
    intro st sid h0 h1
    rw [apiRun, List.foldl_cons] at h1
    cases a with
    | setProvider p =>
      have h2 := ih (apiStep st (ApiAction.setProvider p)) sid
        (by simpa [apiStep, setProvider] using h0) h1
      simpa [everSaved] using h2
    | setModel m =>
      have h2 := ih (apiStep st (ApiAction.setModel m)) sid
        (by simpa [apiStep, setModel] using h0) h1
      simpa [everSaved] using h2
    | setApiKey p k =>
      have h2 := ih (apiStep st (ApiAction.setApiKey p k)) sid
        (by simpa [apiStep, setApiKey] using h0) h1
      simpa [everSaved] using h2
    | setConnected b =>
      have h2 := ih (apiStep st (ApiAction.setConnected b)) sid
        (by simpa [apiStep, setConnected] using h0) h1
      simpa [everSaved] using h2
    | disconnect =>
      have h2 := ih (apiStep st ApiAction.disconnect) sid
        (by simpa [apiStep, apiDisconnect] using h0) h1
      simpa [everSaved] using h2
    | restoreSessionConnected s =>
      have h2 := ih (apiStep st (ApiAction.restoreSessionConnected s)) sid
        (by simpa [apiStep, restoreSessionConnected_sessions] using h0) h1
      simpa [everSaved] using h2
    | removeSessionConnected s =>
      have hcs : (alookup (apiStep st
          (ApiAction.removeSessionConnected s)).connectedSessions sid).isSome = false := by
        simp only [apiStep, removeSessionConnected]
        rw [alookup_aerase]
        by_cases hk : sid = s
        · simp [hk]
        · rw [if_neg hk]
          exact h0
      have h2 := ih _ sid hcs h1
      simpa [everSaved] using h2
    | saveSessionConnected s =>
      by_cases hs : s = sid
      · simp [everSaved, hs]
      · have hcs : (alookup (apiStep st
            (ApiAction.saveSessionConnected s)).connectedSessions sid).isSome = false := by
          simp only [apiStep, saveSessionConnected]
          rw [alookup_aset_ne _ _ _ _ (fun hh : sid = s => hs hh.symm)]
          exact h0
        have h2 := ih _ sid hcs h1
        simp [everSaved, hs, h2]

/-- C4 counterexample: from the freshly loaded tracker state (connected is
false), a single saveSessionConnected for session s1 creates an entry in
connectedSessions even though no saveSessionConnected was ever issued
while the connected flag was true: backgrounding a disconnected session
does create an entry, refuting the claimed invariant. -/
theorem connectedSessions_entry_cex :
    (alookup (apiRun (loadState none)
        [ApiAction.saveSessionConnected "s1"]).connectedSessions "s1").isSome = true
    ∧ savedWhileConnected (loadState none) "s1"
        [ApiAction.saveSessionConnected "s1"] = false :=
⟨rfl, rfl⟩

/-- C4 (amended): in every tracker state reachable from a load, an entry
exists in connectedSessions for a session id only if saveSessionConnected
was dispatched for that id at some point since the load, regardless of
the connected flag at that moment (the snapshot records whatever the flag
then was). -/
theorem connectedSessions_entry_implies_saved
    (stored : Option ApiState) (acts : List ApiAction) (sid : String)
    (h : (alookup (apiRun (loadState stored) acts).connectedSessions sid).isSome = true) :
    everSaved sid acts = true := by
  apply entry_implies_saved_aux acts (loadState stored) sid ?_ h
  cases stored <;> simp [loadState, defaultApiState, alookup]

theorem connectedSessions_entry_implies_saved_witness :
    ((alookup (apiRun (loadState none)
        [ApiAction.setConnected true, ApiAction.saveSessionConnected "s1"]).connectedSessions
        "s1").isSome = true)
    ∧ everSaved "s1" [ApiAction.setConnected true, ApiAction.saveSessionConnected "s1"] = true :=
⟨rfl, connectedSessions_entry_implies_saved none
  [ApiAction.setConnected true, ApiAction.saveSessionConnected "s1"] "s1" rfl⟩

/-! ## Claim C6: new-session isolation -/

theorem find?_updateFirst (p : α → Bool) (f : α → α) (l : List α)
    (hpf : ∀ a, p (f a) = p a) :
    (updateFirst p f l).find? p = (l.find? p).map f := by
  induction l with
  | nil => rfl
  | cons x xs ih =>
    by_cases h : p x = true
    · simp only [updateFirst, if_pos h]
      rw [List.find?_cons_of_pos _ (by rw [hpf]; exact h), List.find?_cons_of_pos _ h]
      rfl
    · simp only [updateFirst, if_neg h]
      rw [List.find?_cons_of_neg _ h, List.find?_cons_of_neg _ h]
      exact ih

theorem find?_append_some (p : α → Bool) (l l2 : List α) (a : α)
    (h : l.find? p = some a) : (l ++ l2).find? p = some a := by
  rw [List.find?_append, h]
  rfl

/-- The concrete renderer state used to refute C6: the active session A has
an empty stored path while the file browser sits at /p. -/
def gEx6 : GlobalState :=
{ session := { sessions := [⟨"a", "A", "", [], [], 0⟩], activeId := some "a" },
  chat := { messages := [], input := "", isStreaming := false, nextId := 1 },
  task := { tasks := [], counter := 0, input := "" },
  file := { currentPath := "/p", inputPath := "/p", entries := [],
            selectedFile := "", error := "", fileAlert := "" },
  api := defaultApiState }

/-- C6 counterexample: with the active session A storing the empty path,
handleAddSession snapshots currentSession?.path || file.currentPath,
which falls through to the file browser's current path, so A's stored
path changes from the empty string to /p: the claim that A's stored path
is always left unchanged fails on this input. -/
theorem addSession_path_cex :
    ((handleAddSession gEx6 "x" "b").session.sessions.find?
        (fun s => decide (s.id = "a"))).map Session.path = some "/p"
    ∧ (gEx6.session.sessions.find?
        (fun s => decide (s.id = "a"))).map Session.path = some ""
    ∧ ("/p" : String) ≠ "" := by
  refine ⟨by decide, by decide, by decide⟩

/-- C6 (amended): for every active session A whose own stored path is
non-empty and every non-empty trimmed name, handleAddSession creates a
brand-new session (empty messages, empty tasks, taskCounter 0, path = the
file browser's current path), appends it and makes it active, and leaves
A's stored path unchanged; when A's stored path is empty, the file
browser's current path is stored into A instead (see the
counterexample). -/
theorem addSession_isolation (g : GlobalState) (nameInput newId aid : String) (A : Session)
    (hact : g.session.activeId = some aid)
    (haid : aid ≠ "")
    (hfind : g.session.sessions.find? (fun s => decide (s.id = aid)) = some A)
    (hpath : A.path ≠ "")
    (hname : jsTrim nameInput ≠ "") :
    (handleAddSession g nameInput newId).session.activeId = some newId
    ∧ (handleAddSession g nameInput newId).session.sessions.getLast?
        = some ⟨newId, jsTrim nameInput, g.file.currentPath, [], [], 0⟩
    ∧ ((handleAddSession g nameInput newId).session.sessions.find?
        (fun s => decide (s.id = aid))).map Session.path = some A.path := by
  have hupd : ∀ s : Session,
      (fun s : Session => decide (s.id = aid))
        ({ s with messages := g.chat.messages, tasks := g.task.tasks,
                  taskCounter := g.task.counter, path := A.path })
      = (fun s : Session => decide (s.id = aid)) s := fun s => rfl
  refine ⟨?_, ?_, ?_⟩
  · unfold handleAddSession
    rw [if_neg hname]
    rfl
  · unfold handleAddSession
    rw [if_neg hname]
    exact List.getLast?_concat _
  · unfold handleAddSession snapshotCurrent saveCurrentState addSession
    rw [if_neg hname]
    simp only [hact, hfind, if_neg haid, if_neg hpath]
    have h1 : (updateFirst (fun s : Session => decide (s.id = aid))
        (fun s => { s with messages := g.chat.messages, tasks := g.task.tasks,
                           taskCounter := g.task.counter, path := A.path })
        g.session.sessions).find? (fun s => decide (s.id = aid))
        = some ({ A with messages := g.chat.messages, tasks := g.task.tasks,
                         taskCounter := g.task.counter, path := A.path }) := by
      rw [find?_updateFirst _ _ _ hupd, hfind]
      rfl
    have h2 := find?_append_some _ _
        [(⟨newId, jsTrim nameInput, g.file.currentPath, [], [], 0⟩ : Session)] _ h1
    rw [h2]
    rfl

/-- A concrete well-formed renderer state witnessing C6: active session A
with non-empty stored path /q, file browser at /p. -/
def gW6 : GlobalState :=
{ session := { sessions := [⟨"a", "A", "/q", [], [], 0⟩], activeId := some "a" },
  chat := { messages := [], input := "", isStreaming := false, nextId := 1 },
  task := { tasks := [], counter := 0, input := "" },
  file := { currentPath := "/p", inputPath := "/p", entries := [],
            selectedFile := "", error := "", fileAlert := "" },
  api := defaultApiState }

theorem addSession_isolation_witness :
    gW6.session.activeId = some "a"
    ∧ ("a" : String) ≠ ""
    ∧ gW6.session.sessions.find? (fun s => decide (s.id = "a"))
        = some ⟨"a", "A", "/q", [], [], 0⟩
    ∧ (⟨"a", "A", "/q", [], [], 0⟩ : Session).path ≠ ""
    ∧ jsTrim "x" ≠ ""
    ∧ ((handleAddSession gW6 "x" "b").session.activeId = some "b"
       ∧ (handleAddSession gW6 "x" "b").session.sessions.getLast?
           = some ⟨"b", jsTrim "x", gW6.file.currentPath, [], [], 0⟩
       ∧ ((handleAddSession gW6 "x" "b").session.sessions.find?
           (fun s => decide (s.id = "a"))).map Session.path
           = some (⟨"a", "A", "/q", [], [], 0⟩ : Session).path) :=
⟨rfl, by decide, by decide, by decide, by decide,
 addSession_isolation gW6 "x" "b" "a" ⟨"a", "A", "/q", [], [], 0⟩
   rfl (by decide) (by decide) (by decide) (by decide)⟩

/-! ## Claim C7: delete-active fallback and last-session clear -/

/-- The concrete renderer state used to refute the "clears the live chat
view to empty" half of C7: one session with one live user message. -/
def gEx7 : GlobalState :=
{ session := { sessions := [⟨"a", "A", "", [], [], 0⟩], activeId := some "a" },
  chat := { messages := [⟨1, MsgType.user, "hi"⟩], input := "", isStreaming := false,
            nextId := 2 },
  task := { tasks := [], counter := 0, input := "" },
  file := { currentPath := "", inputPath := "", entries := [], selectedFile := "",
            error := "", fileAlert := "" },
  api := defaultApiState }

/-- C7 counterexample: deleting the last remaining session does set the
active id to null, but the live chat view is reset to the single welcome
system message rather than to an empty message list, refuting the
"resets the live chat view to empty" part of the claim. -/
theorem delete_last_view_cex :
    (handleDelete gEx7 "a" none).session.activeId = none
    ∧ (handleDelete gEx7 "a" none).chat.messages ≠ []
    ∧ (handleDelete gEx7 "a" none).chat.messages = [welcomeMessage] := by
  refine ⟨by decide, by decide, by decide⟩

/-- C7 (amended): with sessions A, B, C in that order and A active, deleting
A removes it and activates B, the first remaining session in list order;
deleting the last remaining session sets the active id to null, resets
the live task view to empty, and resets the live chat view to the single
default welcome system message with next id 1 (not to a literally empty
list). -/
theorem delete_active_fallback (A B C : Session)
    (chat0 : ChatState) (task0 : TaskState) (file0 : FileState) (api0 : ApiState)
    (A2 : Session) (chat2 : ChatState) (task2 : TaskState) (file2 : FileState)
    (api2 : ApiState)
    (hBA : B.id ≠ A.id) (hCA : C.id ≠ A.id)
    (dir dir2 : Option (String × List FileEntry)) :
    (handleDelete ⟨⟨[A, B, C], some A.id⟩, chat0, task0, file0, api0⟩ A.id dir).session.sessions
        = [B, C]
    ∧ (handleDelete ⟨⟨[A, B, C], some A.id⟩, chat0, task0, file0, api0⟩ A.id dir).session.activeId
        = some B.id
    ∧ (handleDelete ⟨⟨[A2], some A2.id⟩, chat2, task2, file2, api2⟩ A2.id dir2).session.activeId
        = none
    ∧ (handleDelete ⟨⟨[A2], some A2.id⟩, chat2, task2, file2, api2⟩ A2.id dir2).session.sessions
        = []
    ∧ (handleDelete ⟨⟨[A2], some A2.id⟩, chat2, task2, file2, api2⟩ A2.id dir2).chat.messages
        = [welcomeMessage]
    ∧ (handleDelete ⟨⟨[A2], some A2.id⟩, chat2, task2, file2, api2⟩ A2.id dir2).chat.nextId
        = 1
    ∧ (handleDelete ⟨⟨[A2], some A2.id⟩, chat2, task2, file2, api2⟩ A2.id dir2).task.tasks
        = []
    ∧ (handleDelete ⟨⟨[A2], some A2.id⟩, chat2, task2, file2, api2⟩ A2.id dir2).task.counter
        = 0 := by
  refine ⟨?_, ?_, ?_, ?_, ?_, ?_, ?_, ?_⟩ <;>
    simp [handleDelete, deleteSession, restoreMessages, restoreTasks, hBA, hCA]

theorem delete_active_fallback_witness :
    (("b" : String) ≠ "a" ∧ ("c" : String) ≠ "a")
    ∧ ((handleDelete ⟨⟨[⟨"a", "A", "", [], [], 0⟩, ⟨"b", "B", "", [], [], 0⟩,
          ⟨"c", "C", "", [], [], 0⟩], some "a"⟩,
          ⟨[], "", false, 1⟩, ⟨[], 0, ""⟩, ⟨"", "", [], "", "", ""⟩,
          defaultApiState⟩ "a" none).session.sessions
          = [⟨"b", "B", "", [], [], 0⟩, ⟨"c", "C", "", [], [], 0⟩]
       ∧ (handleDelete ⟨⟨[⟨"a", "A", "", [], [], 0⟩, ⟨"b", "B", "", [], [], 0⟩,
            ⟨"c", "C", "", [], [], 0⟩], some "a"⟩,
            ⟨[], "", false, 1⟩, ⟨[], 0, ""⟩, ⟨"", "", [], "", "", ""⟩,
            defaultApiState⟩ "a" none).session.activeId = some "b"
       ∧ (handleDelete ⟨⟨[⟨"z", "Z", "", [], [], 0⟩], some "z"⟩,
            ⟨[], "", false, 1⟩, ⟨[], 0, ""⟩, ⟨"", "", [], "", "", ""⟩,
            defaultApiState⟩ "z" none).session.activeId = none
       ∧ (handleDelete ⟨⟨[⟨"z", "Z", "", [], [], 0⟩], some "z"⟩,
            ⟨[], "", false, 1⟩, ⟨[], 0, ""⟩, ⟨"", "", [], "", "", ""⟩,
            defaultApiState⟩ "z" none).session.sessions = []
       ∧ (handleDelete ⟨⟨[⟨"z", "Z", "", [], [], 0⟩], some "z"⟩,
            ⟨[], "", false, 1⟩, ⟨[], 0, ""⟩, ⟨"", "", [], "", "", ""⟩,
            defaultApiState⟩ "z" none).chat.messages = [welcomeMessage]
       ∧ (handleDelete ⟨⟨[⟨"z", "Z", "", [], [], 0⟩], some "z"⟩,
            ⟨[], "", false, 1⟩, ⟨[], 0, ""⟩, ⟨"", "", [], "", "", ""⟩,
            defaultApiState⟩ "z" none).chat.nextId = 1
       ∧ (handleDelete ⟨⟨[⟨"z", "Z", "", [], [], 0⟩], some "z"⟩,
            ⟨[], "", false, 1⟩, ⟨[], 0, ""⟩, ⟨"", "", [], "", "", ""⟩,
            defaultApiState⟩ "z" none).task.tasks = []
       ∧ (handleDelete ⟨⟨[⟨"z", "Z", "", [], [], 0⟩], some "z"⟩,
            ⟨[], "", false, 1⟩, ⟨[], 0, ""⟩, ⟨"", "", [], "", "", ""⟩,
            defaultApiState⟩ "z" none).task.counter = 0) :=
⟨⟨by decide, by decide⟩,
 delete_active_fallback ⟨"a", "A", "", [], [], 0⟩ ⟨"b", "B", "", [], [], 0⟩
   ⟨"c", "C", "", [], [], 0⟩ ⟨[], "", false, 1⟩ ⟨[], 0, ""⟩ ⟨"", "", [], "", "", ""⟩
   defaultApiState ⟨"z", "Z", "", [], [], 0⟩ ⟨[], "", false, 1⟩ ⟨[], 0, ""⟩
   ⟨"", "", [], "", "", ""⟩ defaultApiState (by decide) (by decide) none none⟩

/-! ## Claim C8: switching to a session with no stored messages -/

/-- The concrete renderer state used to refute C8: active session a with a
live user message, target session b with an empty stored message list. -/
def gEx8 : GlobalState :=
{ session := { sessions := [⟨"a", "A", "", [⟨1, MsgType.user, "m1"⟩], [], 0⟩,
                            ⟨"b", "B", "", [], [], 0⟩],
               activeId := some "a" },
  chat := { messages := [⟨1, MsgType.user, "m1"⟩], input := "", isStreaming := false,
            nextId := 2 },
  task := { tasks := [], counter := 0, input := "" },
  file := { currentPath := "", inputPath := "", entries := [], selectedFile := "",
            error := "", fileAlert := "" },
  api := defaultApiState }

/-- C8 counterexample: switching to session b, whose stored message list is
empty, leaves the live chat view holding the single welcome system
message, not an empty list, refuting "leaves the live chat view empty
(no messages displayed)". -/
theorem switch_empty_view_cex :
    (handleSwitch gEx8 "b" none).chat.messages ≠ []
    ∧ (handleSwitch gEx8 "b" none).chat.messages = [welcomeMessage] := by
  refine ⟨by decide, by decide⟩

/-- C8 (amended): switching from active session A to session B whose stored
message list is empty resets the live chat view to exactly the single
default welcome system message (a system-typed placeholder with id 0)
with next message id 1 — it shows no user or assistant messages, but the
list is not literally empty. -/
theorem switch_to_empty_session (A B : Session)
    (chat0 : ChatState) (task0 : TaskState) (file0 : FileState) (api0 : ApiState)
    (hAid : A.id ≠ "") (hne : A.id ≠ B.id) (hB : B.messages = [])
    (dir : Option (String × List FileEntry)) :
    (handleSwitch ⟨⟨[A, B], some A.id⟩, chat0, task0, file0, api0⟩ B.id dir).chat.messages
        = [welcomeMessage]
    ∧ (handleSwitch ⟨⟨[A, B], some A.id⟩, chat0, task0, file0, api0⟩ B.id dir).chat.nextId
        = 1
    ∧ ∀ m ∈ (handleSwitch ⟨⟨[A, B], some A.id⟩, chat0, task0, file0, api0⟩ B.id
          dir).chat.messages,
        m.type = MsgType.system := by
  have hne2 : B.id ≠ A.id := fun h => hne h.symm
  have h1 : (handleSwitch ⟨⟨[A, B], some A.id⟩, chat0, task0, file0, api0⟩ B.id
      dir).chat.messages = [welcomeMessage] := by
    simp [handleSwitch, snapshotCurrent, saveCurrentState, switchSession, updateFirst,
          restoreMessages, nextIdOf, hAid, hne, hne2, hB]
  have h2 : (handleSwitch ⟨⟨[A, B], some A.id⟩, chat0, task0, file0, api0⟩ B.id
      dir).chat.nextId = 1 := by
    simp [handleSwitch, snapshotCurrent, saveCurrentState, switchSession, updateFirst,
          restoreMessages, nextIdOf, hAid, hne, hne2, hB]
  refine ⟨h1, h2, ?_⟩
  intro m hm
  rw [h1] at hm
  simp at hm
  rw [hm]
  rfl

theorem switch_to_empty_session_witness :
    (("a" : String) ≠ "" ∧ ("a" : String) ≠ "b"
      ∧ (⟨"b", "B", "", [], [], 0⟩ : Session).messages = [])
    ∧ ((handleSwitch ⟨⟨[⟨"a", "A", "", [⟨1, MsgType.user, "m1"⟩], [], 0⟩,
          ⟨"b", "B", "", [], [], 0⟩], some "a"⟩,
          ⟨[⟨1, MsgType.user, "m1"⟩], "", false, 2⟩, ⟨[], 0, ""⟩,
          ⟨"", "", [], "", "", ""⟩, defaultApiState⟩ "b" none).chat.messages
          = [welcomeMessage]
       ∧ (handleSwitch ⟨⟨[⟨"a", "A", "", [⟨1, MsgType.user, "m1"⟩], [], 0⟩,
            ⟨"b", "B", "", [], [], 0⟩], some "a"⟩,
            ⟨[⟨1, MsgType.user, "m1"⟩], "", false, 2⟩, ⟨[], 0, ""⟩,
            ⟨"", "", [], "", "", ""⟩, defaultApiState⟩ "b" none).chat.nextId = 1
       ∧ ∀ m ∈ (handleSwitch ⟨⟨[⟨"a", "A", "", [⟨1, MsgType.user, "m1"⟩], [], 0⟩,
            ⟨"b", "B", "", [], [], 0⟩], some "a"⟩,
            ⟨[⟨1, MsgType.user, "m1"⟩], "", false, 2⟩, ⟨[], 0, ""⟩,
            ⟨"", "", [], "", "", ""⟩, defaultApiState⟩ "b" none).chat.messages,
          m.type = MsgType.system) :=
⟨⟨by decide, by decide, rfl⟩,
 switch_to_empty_session ⟨"a", "A", "", [⟨1, MsgType.user, "m1"⟩], [], 0⟩
   ⟨"b", "B", "", [], [], 0⟩ ⟨[⟨1, MsgType.user, "m1"⟩], "", false, 2⟩ ⟨[], 0, ""⟩
   ⟨"", "", [], "", "", ""⟩ defaultApiState (by decide) (by decide) rfl none⟩

/-! ## Claim C3: switch round trip -/

/-- C3: with sessions A and B, A active and the live chat view non-empty,
switching to B and then back to A restores the live messages and tasks
to exactly their values before the round trip, and sets the live next
message id to one greater than the maximum message id present
(nextIdOf). -/
theorem switch_round_trip (A B : Session)
    (chat0 : ChatState) (task0 : TaskState) (file0 : FileState) (api0 : ApiState)
    (hAid : A.id ≠ "") (hBid : B.id ≠ "") (hne : A.id ≠ B.id)
    (hM : chat0.messages ≠ [])
    (dirB dirA : Option (String × List FileEntry)) :
    (handleSwitch (handleSwitch ⟨⟨[A, B], some A.id⟩, chat0, task0, file0, api0⟩ B.id dirB)
        A.id dirA).chat.messages = chat0.messages
    ∧ (handleSwitch (handleSwitch ⟨⟨[A, B], some A.id⟩, chat0, task0, file0, api0⟩ B.id dirB)
        A.id dirA).chat.nextId = nextIdOf chat0.messages
    ∧ (handleSwitch (handleSwitch ⟨⟨[A, B], some A.id⟩, chat0, task0, file0, api0⟩ B.id dirB)
        A.id dirA).task.tasks = task0.tasks
    ∧ (handleSwitch (handleSwitch ⟨⟨[A, B], some A.id⟩, chat0, task0, file0, api0⟩ B.id dirB)
        A.id dirA).task.counter = task0.counter := by
  have hne2 : B.id ≠ A.id := fun h => hne h.symm
  have hMl : 0 < chat0.messages.length := List.length_pos.mpr hM
  refine ⟨?_, ?_, ?_, ?_⟩ <;>
    simp [handleSwitch, snapshotCurrent, saveCurrentState, switchSession, updateFirst,
          restoreMessages, restoreTasks, hAid, hBid, hne, hne2, hMl]

theorem switch_round_trip_witness :
    (("a" : String) ≠ "" ∧ ("b" : String) ≠ "" ∧ ("a" : String) ≠ "b"
      ∧ ([⟨1, MsgType.user, "m1"⟩, ⟨2, MsgType.assistant, "m2"⟩] : List ChatMessage) ≠ [])
    ∧ ((handleSwitch (handleSwitch ⟨⟨[⟨"a", "A", "", [], [], 0⟩, ⟨"b", "B", "", [], [], 0⟩],
          some "a"⟩,
          ⟨[⟨1, MsgType.user, "m1"⟩, ⟨2, MsgType.assistant, "m2"⟩], "", false, 3⟩,
          ⟨[⟨1, "t1", false⟩], 1, ""⟩, ⟨"", "", [], "", "", ""⟩, defaultApiState⟩
          "b" none) "a" none).chat.messages
        = [⟨1, MsgType.user, "m1"⟩, ⟨2, MsgType.assistant, "m2"⟩]
       ∧ (handleSwitch (handleSwitch ⟨⟨[⟨"a", "A", "", [], [], 0⟩, ⟨"b", "B", "", [], [], 0⟩],
            some "a"⟩,
            ⟨[⟨1, MsgType.user, "m1"⟩, ⟨2, MsgType.assistant, "m2"⟩], "", false, 3⟩,
            ⟨[⟨1, "t1", false⟩], 1, ""⟩, ⟨"", "", [], "", "", ""⟩, defaultApiState⟩
            "b" none) "a" none).chat.nextId
          = nextIdOf [⟨1, MsgType.user, "m1"⟩, ⟨2, MsgType.assistant, "m2"⟩]
       ∧ (handleSwitch (handleSwitch ⟨⟨[⟨"a", "A", "", [], [], 0⟩, ⟨"b", "B", "", [], [], 0⟩],
            some "a"⟩,
            ⟨[⟨1, MsgType.user, "m1"⟩, ⟨2, MsgType.assistant, "m2"⟩], "", false, 3⟩,
            ⟨[⟨1, "t1", false⟩], 1, ""⟩, ⟨"", "", [], "", "", ""⟩, defaultApiState⟩
            "b" none) "a" none).task.tasks
          = [⟨1, "t1", false⟩]
       ∧ (handleSwitch (handleSwitch ⟨⟨[⟨"a", "A", "", [], [], 0⟩, ⟨"b", "B", "", [], [], 0⟩],
            some "a"⟩,
            ⟨[⟨1, MsgType.user, "m1"⟩, ⟨2, MsgType.assistant, "m2"⟩], "", false, 3⟩,
            ⟨[⟨1, "t1", false⟩], 1, ""⟩, ⟨"", "", [], "", "", ""⟩, defaultApiState⟩
            "b" none) "a" none).task.counter
          = 1) :=
⟨⟨by decide, by decide, by decide, by decide⟩,
 switch_round_trip ⟨"a", "A", "", [], [], 0⟩ ⟨"b", "B", "", [], [], 0⟩
   ⟨[⟨1, MsgType.user, "m1"⟩, ⟨2, MsgType.assistant, "m2"⟩], "", false, 3⟩
   ⟨[⟨1, "t1", false⟩], 1, ""⟩ ⟨"", "", [], "", "", ""⟩ defaultApiState
   (by decide) (by decide) (by decide) (by decide) none none⟩

end Cowork
